import Mathlib

/-!
Verification of the kTBS locking subsystem (engine/lock.py, engine/base.py).

The Python code is shallowly embedded as a deterministic state-passing
interpreter.  A World records the OS-level named semaphores (name to
count), the per-resource lock-holder bookkeeping (resource uri to thread
ident), the resource states (uri to number of triples) and the set of
resources marked as deleted in the caching layer.  One invocation of
WithLockMixin.lock is a function from World to a final World, a trace of
primitive steps (each paired with the World right after it) and an
Outcome.  The with-statement body is an abstract function of the same
shape, so nested lock calls compose directly.
-/

/-- Association list lookup: first binding wins (models a dict keyed by
semaphore name or resource uri). -/
def lookupKN : List (String × Nat) → String → Option Nat
  | [], _ => none
  | (k, v) :: rest, key => if k = key then some v else lookupKN rest key

/-- Association list update: replaces the first binding of the key, or
appends a fresh binding. -/
def insertKN : List (String × Nat) → String → Nat → List (String × Nat)
  | [], key, val => [(key, val)]
  | (k, v) :: rest, key, val =>
      if k = key then (key, val) :: rest else (k, v) :: insertKN rest key val

/-- Association list removal of every binding of the key (models deleting
a name from the OS semaphore namespace). -/
def eraseAllKN : List (String × Nat) → String → List (String × Nat)
  | [], _ => []
  | (k, v) :: rest, key =>
      if k = key then eraseAllKN rest key else (k, v) :: eraseAllKN rest key

/-- get_semaphore_name from engine/lock.py: a leading slash followed by
the resource uri with every slash replaced by a dash.  The Python call
resource_uri.replace with one-character arguments is character-wise
substitution, embedded as a map over the characters. -/
def get_semaphore_name (resource_uri : String) : String :=
  "/" ++ ⟨resource_uri.data.map (fun c => if c = '/' then '-' else c)⟩

/-- The shared mutable state visible to the locking subsystem. -/
structure World where
  sems    : List (String × Nat)
  holders : List (String × Nat)
  states  : List (String × Nat)
  deleted : List String
deriving DecidableEq

/-- Count of the named semaphore, none when the name does not exist. -/
def semCount (w : World) (name : String) : Option Nat :=
  lookupKN w.sems name

/-- The recorded locking thread ident of a resource, none when unset. -/
def holderOf (w : World) (uri : String) : Option Nat :=
  lookupKN w.holders uri

/-- Number of triples in the state of a resource (len of resource.state). -/
def stateLen (w : World) (uri : String) : Nat :=
  (lookupKN w.states uri).getD 0

/-- Primitive steps of an execution, recorded for trace properties. -/
inductive Event where
  | semCreate (name : String)
  | acquireOk (name : String)
  | acquireTimeout (name : String)
  | setHolder (uri : String) (tid : Nat)
  | markDel (uri : String)
  | bodyStart (uri : String)
  | clearHolder (uri : String)
  | release (name : String)
  | close (name : String)
deriving DecidableEq

/-- Termination status of one lock invocation.  typeError is the
TypeError the source raises for a vanished resource (the StaleResourceError
of the specification); busyError is posix_ipc.BusyError; otherExc stands
for an arbitrary exception escaping the body. -/
inductive Outcome where
  | ok
  | typeError (msg : String)
  | busyError (msg : String)
  | otherExc (code : Nat)
deriving DecidableEq

/-- One primitive step together with the World right after it. -/
abbrev Step := Event × World

/-- Result of running a lock invocation or a body: final World, trace of
steps, outcome. -/
abbrev RunResult := World × List Step × Outcome

/-- A with-statement body, abstractly: it consumes the World at entry and
produces a final World, its own trace and an outcome. -/
abbrev Body := World → RunResult

/-- A body that does nothing (used to observe the lock machinery alone). -/
def skipBody : Body := fun w => (w, [], Outcome.ok)

/-- posix_ipc.Semaphore with O_CREAT and initial value 1: opens the
existing semaphore unchanged, or creates it with count 1.  Used by
_get_semaphore and by the module-level constructors. -/
def ensureSem (name : String) (w : World) : World × List Step :=
  match lookupKN w.sems name with
  | some _ => (w, [])
  | none =>
      let w1 : World := { w with sems := insertKN w.sems name 1 }
      (w1, [(Event.semCreate name, w1)])

/-- reset_lock from engine/lock.py: open or create the semaphore with
initial value 1; if its observed value is 0, release it once (then close,
which does not change the count). -/
def reset_lock (resource_uri : String) (w : World) : World :=
  let name := get_semaphore_name resource_uri
  match lookupKN w.sems name with
  | none => { w with sems := insertKN w.sems name 1 }
  | some v => if v = 0 then { w with sems := insertKN w.sems name (v + 1) } else w

/-- Text standing for the holder in the BusyError message:
the Python expression takes the ident when it is truthy (not None and
not 0) and the literal Unknown otherwise. -/
def holderRepr : Option Nat → String
  | some t => if t = 0 then "Unknown" else toString t
  | none => "Unknown"

/-- The BusyError message built in lock: resource uri plus best-known
holder. -/
def busyMsg (uri : String) (h : Option Nat) : String :=
  "The resource <" ++ uri ++ "> is locked by thread " ++ holderRepr h ++ "."

/-- The TypeError message built in lock when the resource vanished. -/
def staleMsg (uri : String) : String :=
  "The resource <" ++ uri ++ "> no longer exists."

/-- The inner try block of lock: if the target resource has an empty
state, mark it as deleted and raise TypeError before the body runs;
otherwise run the body. -/
def guardedBody (self_uri res_uri : String) (body : Body) (w2 : World) : RunResult :=
  if stateLen w2 res_uri = 0 then
    let wd : World := { w2 with deleted := res_uri :: w2.deleted }
    (wd, [(Event.markDel res_uri, wd)], Outcome.typeError (staleMsg res_uri))
  else
    let r := body w2
    (r.1, (Event.bodyStart self_uri, w2) :: r.2.1, r.2.2)

/-- The finally block of lock: clear the holder record, release the
semaphore (count plus one), close the handle. -/
def finallyRelease (self_uri name : String) (r : RunResult) : RunResult :=
  let w4 : World := { r.1 with holders := eraseAllKN r.1.holders self_uri }
  let w5 : World := { w4 with sems := insertKN w4.sems name ((semCount w4 name).getD 0 + 1) }
  (w5, r.2.1 ++ [(Event.clearHolder self_uri, w4), (Event.release name, w5), (Event.close name, w5)],
   r.2.2)

/-- The except BusyError block of lock: any BusyError escaping the
acquire-and-run block is replaced by a fresh BusyError naming this
resource and the holder recorded at that moment. -/
def rewrapBusy (self_uri : String) (r : RunResult) : RunResult :=
  match r.2.2 with
  | Outcome.busyError _ =>
      (r.1, r.2.1, Outcome.busyError (busyMsg self_uri (holderOf r.1 self_uri)))
  | _ => r

/-- The successful-acquisition branch of lock: decrement the count,
record the holder, run the guarded body, then the finally block. -/
def acquireOkRun (self_uri res_uri : String) (tid : Nat) (body : Body)
    (name : String) (w0 : World) (c : Nat) : RunResult :=
  let w1 : World := { w0 with sems := insertKN w0.sems name c }
  let w2 : World := { w1 with holders := insertKN w1.holders self_uri tid }
  let r := guardedBody self_uri res_uri body w2
  finallyRelease self_uri name
    (r.1, (Event.acquireOk name, w1) :: (Event.setHolder self_uri tid, w2) :: r.2.1, r.2.2)

/-- The non-reentrant path of lock: obtain the semaphore (created at 1
when absent), then either acquire it (count positive) or time out
(count 0, no other releaser in the deterministic model); every BusyError
reaching the except block is rewrapped with diagnostic text. -/
def lockSlow (self_uri res_uri : String) (tid : Nat) (body : Body) (w : World) : RunResult :=
  let name := get_semaphore_name self_uri
  let e := ensureSem name w
  match semCount e.1 name with
  | some (c + 1) =>
      let r := acquireOkRun self_uri res_uri tid body name e.1 c
      rewrapBusy self_uri (r.1, e.2 ++ r.2.1, r.2.2)
  | _ =>
      (e.1, e.2 ++ [(Event.acquireTimeout name, e.1)],
       Outcome.busyError (busyMsg self_uri (holderOf e.1 self_uri)))

/-- WithLockMixin.lock: reentrant fast path when the recorded locking
thread ident of self equals the current thread ident, else the
non-reentrant path. -/
def lockRun (self_uri res_uri : String) (tid : Nat) (body : Body) (w : World) : RunResult :=
  if holderOf w self_uri = some tid then body w
  else lockSlow self_uri res_uri tid body w

/-- WithLockMixin.delete: with root.lock(self) and then self.lock(self),
run the inherited delete (abstract superBody). -/
def deleteRun (root_uri self_uri : String) (tid : Nat) (superBody : Body) (w : World) : RunResult :=
  lockRun root_uri self_uri tid (fun w1 => lockRun self_uri self_uri tid superBody w1) w

/-- WithLockMixin.ack_delete: run the inherited acknowledgement
(abstract superAck), then unlink the semaphore of self (open with O_CREAT
then unlink removes the name whether or not it existed). -/
def ack_delete (self_uri : String) (superAck : World → World) (w : World) : World :=
  let w1 := superAck w
  { w1 with sems := eraseAllKN w1.sems (get_semaphore_name self_uri) }

/-- get_lock from engine/base.py: open or create the semaphore of the
base at initial value 1 (the name formula is the same expression as
get_semaphore_name), acquire it, run the body, and release it in the
finally block.  There is no holder bookkeeping, no existence check, no
close, and no rewrapping: a timeout propagates the raw posix_ipc
BusyError, which carries no kTBS-built message (modelled as an empty
message). -/
def getLockRun (base_name : String) (body : Body) (w : World) : RunResult :=
  let sem_name := get_semaphore_name base_name
  let e := ensureSem sem_name w
  match semCount e.1 sem_name with
  | some (c + 1) =>
      let w1 : World := { e.1 with sems := insertKN e.1.sems sem_name c }
      let r := body w1
      let w5 : World :=
        { r.1 with sems := insertKN r.1.sems sem_name ((semCount r.1 sem_name).getD 0 + 1) }
      (w5, e.2 ++ [(Event.acquireOk sem_name, w1), (Event.bodyStart base_name, w1)] ++ r.2.1
            ++ [(Event.release sem_name, w5)], r.2.2)
  | _ =>
      (e.1, e.2 ++ [(Event.acquireTimeout sem_name, e.1)], Outcome.busyError "")

/-- Base.delete from engine/base.py: runs the inherited delete under
get_lock on the uri of the base itself; no lock other than the one of
the base appears in the method. -/
def base_delete (self_uri : String) (superBody : Body) (w : World) : RunResult :=
  getLockRun self_uri superBody w

/-- Base.ack_delete from engine/base.py: the inherited acknowledgement
(external rdfrest code, abstract superAck) runs, then two triples are
removed from the root graph inside root.edit.  Modelled from the spec:
the class of the root resource (engine/ktbs_root.py is not under src)
carries the locking mixin, so its edit method is WithLockMixin.edit,
taking the lock of the root itself around the graph edit (abstract
editBody).  No operation in the method touches the semaphore of the
base. -/
def base_ack_delete (root_uri _self_uri : String) (tid : Nat)
    (superAck : World → World) (editBody : Body) (w : World) : RunResult :=
  lockRun root_uri root_uri tid editBody (superAck w)

/-- n-fold nesting of lock around a body, all on the same resource. -/
def nestLock (self_uri res_uri : String) (tid : Nat) : Nat → Body → Body
  | 0, body => body
  | n + 1, body => fun w => lockRun self_uri res_uri tid (nestLock self_uri res_uri tid n body) w

/-- One string occurs inside another. -/
def substr (a b : String) : Prop := ∃ p s, b = p ++ a ++ s

/-- Invariant used by claim C10: whenever the holder record of the
resource names a thread, the semaphore is held (count 0). -/
def holderImpliesHeld (self_uri name : String) (w : World) : Prop :=
  ∀ t : Nat, holderOf w self_uri = some t → semCount w name = some 0

/-- A world whose semaphore for b/t1 is free at count 1. -/
def wFree : World := ⟨[("/b-t1", 1)], [], [("b/t1", 3)], []⟩

/-- A world where thread 7 already holds the lock of b/t1. -/
def wHeldBy7 : World := ⟨[("/b-t1", 0)], [("b/t1", 7)], [("b/t1", 3)], []⟩

/-- A world where thread 5 holds the lock of b/t1. -/
def wHeldBy5 : World := ⟨[("/b-t1", 0)], [("b/t1", 5)], [("b/t1", 3)], []⟩

/-- A world where b/t1 was concurrently deleted (empty state), lock free. -/
def wGone : World := ⟨[("/b-t1", 1)], [], [], []⟩

/-- A world where thread 7 holds the lock of b/t1 and the state is empty. -/
def wHeldGone : World := ⟨[("/b-t1", 0)], [("b/t1", 7)], [], []⟩

/-- A stale world: the semaphore is at 0 with no live holder. -/
def wStale0 : World := ⟨[("/b-t1", 0)], [], [("b/t1", 3)], []⟩

/-- A two-resource world: root lock free, b/t1 lock stuck at 0. -/
def wPairBusy : World := ⟨[("/root", 1), ("/b-t1", 0)], [], [("b/t1", 3), ("root", 2)], []⟩

/-- A two-resource world with both locks free. -/
def wPairFree : World := ⟨[("/root", 1), ("/b-t1", 1)], [], [("b/t1", 3), ("root", 2)], []⟩

/-! Association-list lemmas. -/

/-- Lookup after insert at the same key. -/
theorem lookupKN_insertKN_self (m : List (String × Nat)) (k : String) (v : Nat) :
    lookupKN (insertKN m k v) k = some v := by
  induction m with
  | nil => simp [insertKN, lookupKN]
  | cons a rest ih =>
      obtain ⟨ka, va⟩ := a
      by_cases h : ka = k
      · simp [insertKN, h, lookupKN]
      · simp [insertKN, h, lookupKN, ih]

/-- Insert at one key does not affect lookup at another. -/
theorem lookupKN_insertKN_ne (m : List (String × Nat)) (k k' : String) (v : Nat)
    (h : k' ≠ k) : lookupKN (insertKN m k v) k' = lookupKN m k' := by
  have h2 : ¬ (k = k') := fun hh => h hh.symm
  induction m with
  | nil => simp [insertKN, lookupKN, h2]
  | cons a rest ih =>
      obtain ⟨ka, va⟩ := a
      by_cases hk : ka = k
      · subst hk
        simp [insertKN, lookupKN, h2]
      · simp only [insertKN, if_neg hk, lookupKN]
        by_cases hk' : ka = k'
        · simp [hk']
        · simp [hk', ih]

/-- Lookup after erasing the key itself. -/
theorem lookupKN_eraseAllKN_self (m : List (String × Nat)) (k : String) :
    lookupKN (eraseAllKN m k) k = none := by
  induction m with
  | nil => simp [eraseAllKN, lookupKN]
  | cons a rest ih =>
      obtain ⟨ka, va⟩ := a
      by_cases h : ka = k
      · simp [eraseAllKN, h, ih]
      · simp [eraseAllKN, h, lookupKN, ih]

/-- Erasing one key does not affect lookup at another. -/
theorem lookupKN_eraseAllKN_ne (m : List (String × Nat)) (k k' : String)
    (h : k' ≠ k) : lookupKN (eraseAllKN m k) k' = lookupKN m k' := by
  have h2 : ¬ (k = k') := fun hh => h hh.symm
  induction m with
  | nil => simp [eraseAllKN]
  | cons a rest ih =>
      obtain ⟨ka, va⟩ := a
      by_cases hk : ka = k
      · subst hk
        simp [eraseAllKN, lookupKN, h2, ih]
      · simp [eraseAllKN, hk, lookupKN, ih]

/-- String concatenation is associative. -/
theorem str_append_assoc (a b c : String) : (a ++ b) ++ c = a ++ (b ++ c) := by
  apply String.ext
  simp [String.data_append, List.append_assoc]

/-- Nested reentrant lock calls collapse to the body. -/
theorem nestLock_fast (self_uri res_uri : String) (tid : Nat) (n : Nat) (body : Body)
    (w : World) (h : holderOf w self_uri = some tid) :
    nestLock self_uri res_uri tid n body w = body w := by
  induction n with
  | zero => rfl
  | succ n ih => simp [nestLock, lockRun, h, ih]

/-- C2: when the calling context already holds the lock of a resource, a
nested lock call runs the body immediately with no semaphore operation,
any number of nested times; in a non-reentrant run wrapping nested
reentrant calls, the semaphore events are exactly one acquisition and one
release, the release at the outermost exit. -/
theorem lock_reentrant_no_semaphore_ops
    (self_uri res_uri : String) (tid : Nat) (body : Body) (w : World) (n : Nat)
    (h : holderOf w self_uri = some tid) :
    lockRun self_uri res_uri tid body w = body w
    ∧ nestLock self_uri res_uri tid n body w = body w
    ∧ ∀ w1 : World, ¬ holderOf w1 self_uri = some tid →
        lookupKN w1.sems (get_semaphore_name self_uri) = some 1 →
        ¬ stateLen w1 res_uri = 0 →
        ((lockRun self_uri res_uri tid (nestLock self_uri res_uri tid n skipBody) w1).2.1.map
            Prod.fst) =
          [Event.acquireOk (get_semaphore_name self_uri),
           Event.setHolder self_uri tid, Event.bodyStart self_uri,
           Event.clearHolder self_uri, Event.release (get_semaphore_name self_uri),
           Event.close (get_semaphore_name self_uri)] := by
  refine ⟨by simp [lockRun, h], nestLock_fast _ _ _ _ _ _ h, ?_⟩
  intro w1 h1 h2 h3
  have hw2 : holderOf
      { w1 with
        sems := insertKN w1.sems (get_semaphore_name self_uri) 0,
        holders := insertKN w1.holders self_uri tid } self_uri = some tid := by
    simp [holderOf, lookupKN_insertKN_self]
  have hnest := nestLock_fast self_uri res_uri tid n skipBody _ hw2
  have h3a : ¬ (lookupKN w1.states res_uri).getD 0 = 0 := by simpa [stateLen] using h3
  simp [lockRun, h1, lockSlow, ensureSem, semCount, h2, acquireOkRun, guardedBody,
        stateLen, h3a, hnest, skipBody, finallyRelease, rewrapBusy]

/-- Rewrapping a BusyError does not change the final world. -/
theorem rewrapBusy_fst (u : String) (r : RunResult) : (rewrapBusy u r).1 = r.1 := by
  rcases r with ⟨wr, st, o⟩
  cases o <;> rfl

/-- Rewrapping a BusyError does not change the step trace. -/
theorem rewrapBusy_steps (u : String) (r : RunResult) : (rewrapBusy u r).2.1 = r.2.1 := by
  rcases r with ⟨wr, st, o⟩
  cases o <;> rfl

/-- C9: on the reentrant fast path lock does not re-check that the
target resource exists: even with an empty state the body runs, no
TypeError is raised and nothing is marked deleted; the existence check
fires only on the non-reentrant path after a fresh acquisition. -/
theorem lock_reentrant_skips_existence_check
    (self_uri res_uri : String) (tid : Nat) (body : Body) (w : World)
    (h : holderOf w self_uri = some tid) :
    lockRun self_uri res_uri tid body w = body w
    ∧ (stateLen w res_uri = 0 →
        (lockRun self_uri res_uri tid skipBody w).2.2 = Outcome.ok
        ∧ (lockRun self_uri res_uri tid skipBody w).1.deleted = w.deleted
        ∧ ∀ m, ¬ (lockRun self_uri res_uri tid skipBody w).2.2 = Outcome.typeError m)
    ∧ (∀ w1 : World, ¬ holderOf w1 self_uri = some tid →
        lookupKN w1.sems (get_semaphore_name self_uri) = some 1 →
        stateLen w1 res_uri = 0 →
        (lockRun self_uri res_uri tid skipBody w1).2.2 = Outcome.typeError (staleMsg res_uri)) := by
  refine ⟨by simp [lockRun, h], ?_, ?_⟩
  · intro _
    refine ⟨by simp [lockRun, h, skipBody], by simp [lockRun, h, skipBody], ?_⟩
    intro m
    simp [lockRun, h, skipBody]
  · intro w1 h1 h2 h3
    have h3a : (lookupKN w1.states res_uri).getD 0 = 0 := by simpa [stateLen] using h3
    simp [lockRun, h1, lockSlow, ensureSem, semCount, h2, acquireOkRun, guardedBody,
          stateLen, h3a, finallyRelease, rewrapBusy]

/-- C3: every non-reentrant invocation whose acquisition succeeds clears
the holder record, restores the semaphore count and closes the handle, in
that order, on every exit path: body success, the stale-resource error,
or any exception from the body. -/
theorem lock_releases_on_every_exit
    (self_uri res_uri : String) (tid : Nat) (body : Body) (w : World) (c : Nat)
    (hre : ¬ holderOf w self_uri = some tid)
    (hsem : lookupKN w.sems (get_semaphore_name self_uri) = some (c + 1) ∨
            (lookupKN w.sems (get_semaphore_name self_uri) = none ∧ c = 0))
    (hbody : ∀ w1 : World, semCount (body w1).1 (get_semaphore_name self_uri) =
             semCount w1 (get_semaphore_name self_uri)) :
    holderOf (lockRun self_uri res_uri tid body w).1 self_uri = none
    ∧ semCount (lockRun self_uri res_uri tid body w).1 (get_semaphore_name self_uri) = some (c + 1)
    ∧ ∃ pre : List Event,
        (lockRun self_uri res_uri tid body w).2.1.map Prod.fst =
          pre ++ [Event.clearHolder self_uri, Event.release (get_semaphore_name self_uri),
                  Event.close (get_semaphore_name self_uri)] := by
  have hbodyL : ∀ w1 : World, lookupKN ((body w1).1).sems (get_semaphore_name self_uri) =
      lookupKN w1.sems (get_semaphore_name self_uri) := by
    intro w1
    simpa [semCount] using hbody w1
  have hreL : ¬ lookupKN w.holders self_uri = some tid := by simpa [holderOf] using hre
  rcases hsem with hs | ⟨hs, hc⟩
  · by_cases hst : (lookupKN w.states res_uri).getD 0 = 0
    · refine ⟨?_, ?_, ⟨[Event.acquireOk (get_semaphore_name self_uri),
          Event.setHolder self_uri tid, Event.markDel res_uri], ?_⟩⟩ <;>
        simp [lockRun, hre, hreL, lockSlow, ensureSem, semCount, hs, acquireOkRun, guardedBody,
              stateLen, hst, finallyRelease, rewrapBusy_fst, rewrapBusy_steps, holderOf,
              lookupKN_insertKN_self, lookupKN_eraseAllKN_self]
    · refine ⟨?_, ?_, ⟨[Event.acquireOk (get_semaphore_name self_uri),
          Event.setHolder self_uri tid, Event.bodyStart self_uri] ++
          ((body { w with sems := insertKN w.sems (get_semaphore_name self_uri) c,
                          holders := insertKN w.holders self_uri tid }).2.1.map Prod.fst), ?_⟩⟩ <;>
        simp [lockRun, hre, hreL, lockSlow, ensureSem, semCount, hs, acquireOkRun, guardedBody,
              stateLen, hst, finallyRelease, rewrapBusy_fst, rewrapBusy_steps, holderOf,
              lookupKN_insertKN_self, lookupKN_eraseAllKN_self, hbodyL]
  · subst hc
    by_cases hst : (lookupKN w.states res_uri).getD 0 = 0
    · refine ⟨?_, ?_, ⟨[Event.semCreate (get_semaphore_name self_uri),
          Event.acquireOk (get_semaphore_name self_uri),
          Event.setHolder self_uri tid, Event.markDel res_uri], ?_⟩⟩ <;>
        simp [lockRun, hre, hreL, lockSlow, ensureSem, semCount, hs, acquireOkRun, guardedBody,
              stateLen, hst, finallyRelease, rewrapBusy_fst, rewrapBusy_steps, holderOf,
              lookupKN_insertKN_self, lookupKN_eraseAllKN_self]
    · refine ⟨?_, ?_, ⟨[Event.semCreate (get_semaphore_name self_uri),
          Event.acquireOk (get_semaphore_name self_uri),
          Event.setHolder self_uri tid, Event.bodyStart self_uri] ++
          ((body { w with
              sems := insertKN (insertKN w.sems (get_semaphore_name self_uri) 1)
                        (get_semaphore_name self_uri) 0,
              holders := insertKN w.holders self_uri tid }).2.1.map Prod.fst), ?_⟩⟩ <;>
        simp [lockRun, hre, hreL, lockSlow, ensureSem, semCount, hs, acquireOkRun, guardedBody,
              stateLen, hst, finallyRelease, rewrapBusy_fst, rewrapBusy_steps, holderOf,
              lookupKN_insertKN_self, lookupKN_eraseAllKN_self, hbodyL]

/-- C4: after a successful acquisition on a resource whose state is
empty, the resource is marked as deleted and a TypeError naming its uri
is raised, the result not depending on the body, which never runs; the
semaphore count is nevertheless restored. -/
theorem lock_stale_resource_check
    (self_uri res_uri : String) (tid : Nat) (body : Body) (w : World) (c : Nat)
    (hre : ¬ holderOf w self_uri = some tid)
    (hsem : lookupKN w.sems (get_semaphore_name self_uri) = some (c + 1) ∨
            (lookupKN w.sems (get_semaphore_name self_uri) = none ∧ c = 0))
    (hstale : stateLen w res_uri = 0) :
    (lockRun self_uri res_uri tid body w).2.2 =
      Outcome.typeError ("The resource <" ++ res_uri ++ "> no longer exists.")
    ∧ res_uri ∈ (lockRun self_uri res_uri tid body w).1.deleted
    ∧ (∀ body2 : Body, lockRun self_uri res_uri tid body2 w = lockRun self_uri res_uri tid body w)
    ∧ semCount (lockRun self_uri res_uri tid body w).1 (get_semaphore_name self_uri) = some (c + 1)
    ∧ ∀ e ∈ (lockRun self_uri res_uri tid body w).2.1.map Prod.fst,
        ∀ u : String, ¬ e = Event.bodyStart u := by
  have hreL : ¬ lookupKN w.holders self_uri = some tid := by simpa [holderOf] using hre
  have hstL : (lookupKN w.states res_uri).getD 0 = 0 := by simpa [stateLen] using hstale
  rcases hsem with hs | ⟨hs, hc⟩
  · refine ⟨?_, ?_, ?_, ?_, ?_⟩ <;>
      simp [lockRun, hreL, lockSlow, ensureSem, semCount, hs, acquireOkRun, guardedBody,
            stateLen, hstL, finallyRelease, rewrapBusy, staleMsg, holderOf,
            lookupKN_insertKN_self, lookupKN_eraseAllKN_self]
  · subst hc
    refine ⟨?_, ?_, ?_, ?_, ?_⟩ <;>
      simp [lockRun, hreL, lockSlow, ensureSem, semCount, hs, acquireOkRun, guardedBody,
            stateLen, hstL, finallyRelease, rewrapBusy, staleMsg, holderOf,
            lookupKN_insertKN_self, lookupKN_eraseAllKN_self]

/-- C6: when the acquisition times out, lock raises a BusyError whose
message contains the resource uri and the recorded holder ident, or the
literal Unknown when none is recorded; the result does not depend on the
body, no step of the run is a body start, and the state is unchanged. -/
theorem lock_busy_error_diagnostic
    (self_uri res_uri : String) (tid : Nat) (body : Body) (w : World)
    (hre : ¬ holderOf w self_uri = some tid)
    (hsem : lookupKN w.sems (get_semaphore_name self_uri) = some 0) :
    (lockRun self_uri res_uri tid body w).2.2 =
      Outcome.busyError (busyMsg self_uri (holderOf w self_uri))
    ∧ substr self_uri (busyMsg self_uri (holderOf w self_uri))
    ∧ (holderOf w self_uri = none → substr "Unknown" (busyMsg self_uri (holderOf w self_uri)))
    ∧ (∀ t : Nat, holderOf w self_uri = some t → ¬ t = 0 →
        substr (toString t) (busyMsg self_uri (holderOf w self_uri)))
    ∧ (∀ body2 : Body, lockRun self_uri res_uri tid body2 w = lockRun self_uri res_uri tid body w)
    ∧ (lockRun self_uri res_uri tid body w).1 = w
    ∧ ∀ e ∈ (lockRun self_uri res_uri tid body w).2.1.map Prod.fst,
        ∀ u : String, ¬ e = Event.bodyStart u := by
  have hreL : ¬ lookupKN w.holders self_uri = some tid := by simpa [holderOf] using hre
  refine ⟨?_, ?_, ?_, ?_, ?_, ?_, ?_⟩
  · simp [lockRun, hreL, lockSlow, ensureSem, semCount, hsem, holderOf]
  · refine ⟨"The resource <", "> is locked by thread " ++ holderRepr (holderOf w self_uri) ++ ".", ?_⟩
    simp [busyMsg, str_append_assoc]
  · intro hnone
    refine ⟨"The resource <" ++ self_uri ++ "> is locked by thread ", ".", ?_⟩
    simp [busyMsg, hnone, holderRepr, str_append_assoc]
  · intro t ht ht0
    refine ⟨"The resource <" ++ self_uri ++ "> is locked by thread ", ".", ?_⟩
    simp [busyMsg, ht, holderRepr, ht0, str_append_assoc]
  · intro body2
    simp [lockRun, holderOf, hreL, lockSlow, ensureSem, semCount, hsem]
  · simp [lockRun, holderOf, hreL, lockSlow, ensureSem, semCount, hsem]
  · simp [lockRun, holderOf, hreL, lockSlow, ensureSem, semCount, hsem]

/-- C5: reset_lock is idempotent and establishes a semaphore with count
at least 1: absent semaphores are created at 1, a count observed at 0 is
released exactly once back to 1, and an acquisition immediately after a
reset never times out. -/
theorem reset_lock_idempotent_free
    (u : String) (w : World) (tid : Nat) :
    reset_lock u (reset_lock u w) = reset_lock u w
    ∧ (∃ v, 1 ≤ v ∧ semCount (reset_lock u w) (get_semaphore_name u) = some v)
    ∧ (lookupKN w.sems (get_semaphore_name u) = none →
        semCount (reset_lock u w) (get_semaphore_name u) = some 1)
    ∧ (lookupKN w.sems (get_semaphore_name u) = some 0 →
        semCount (reset_lock u w) (get_semaphore_name u) = some (0 + 1))
    ∧ (¬ holderOf w u = some tid → ¬ stateLen w u = 0 →
        (lockRun u u tid skipBody (reset_lock u w)).2.2 = Outcome.ok
        ∧ ∀ e ∈ (lockRun u u tid skipBody (reset_lock u w)).2.1.map Prod.fst,
            ∀ nm : String, ¬ e = Event.acquireTimeout nm) := by
  rcases hv : lookupKN w.sems (get_semaphore_name u) with _ | v
  · refine ⟨?_, ⟨1, le_refl 1, ?_⟩, ?_, ?_, ?_⟩
    · simp [reset_lock, hv, semCount, lookupKN_insertKN_self]
    · simp [reset_lock, hv, semCount, lookupKN_insertKN_self]
    · intro _
      simp [reset_lock, hv, semCount, lookupKN_insertKN_self]
    · intro hz
      simp at hz
    · intro hh hs
      have hhL : ¬ lookupKN w.holders u = some tid := by simpa [holderOf] using hh
      have hsL : ¬ (lookupKN w.states u).getD 0 = 0 := by simpa [stateLen] using hs
      constructor <;>
        simp [lockRun, reset_lock, hv, hhL, lockSlow, ensureSem, semCount,
              lookupKN_insertKN_self, acquireOkRun, guardedBody, stateLen, hsL,
              finallyRelease, rewrapBusy, skipBody, holderOf]
  · by_cases hz : v = 0
    · subst hz
      refine ⟨?_, ⟨1, le_refl 1, ?_⟩, ?_, ?_, ?_⟩
      · simp [reset_lock, hv, semCount, lookupKN_insertKN_self]
      · simp [reset_lock, hv, semCount, lookupKN_insertKN_self]
      · intro hn
        simp at hn
      · intro _
        simp [reset_lock, hv, semCount, lookupKN_insertKN_self]
      · intro hh hs
        have hhL : ¬ lookupKN w.holders u = some tid := by simpa [holderOf] using hh
        have hsL : ¬ (lookupKN w.states u).getD 0 = 0 := by simpa [stateLen] using hs
        constructor <;>
          simp [lockRun, reset_lock, hv, hhL, lockSlow, ensureSem, semCount,
                lookupKN_insertKN_self, acquireOkRun, guardedBody, stateLen, hsL,
                finallyRelease, rewrapBusy, skipBody, holderOf]
    · obtain ⟨k, rfl⟩ : ∃ k, v = k + 1 := ⟨v - 1, by omega⟩
      refine ⟨?_, ⟨k + 1, by omega, ?_⟩, ?_, ?_, ?_⟩
      · simp [reset_lock, hv, semCount]
      · simp [reset_lock, hv, semCount]
      · intro hn
        simp at hn
      · intro hz2
        simp at hz2
      · intro hh hs
        have hhL : ¬ lookupKN w.holders u = some tid := by simpa [holderOf] using hh
        have hsL : ¬ (lookupKN w.states u).getD 0 = 0 := by simpa [stateLen] using hs
        constructor <;>
          simp [lockRun, reset_lock, hv, hhL, lockSlow, ensureSem, semCount,
                lookupKN_insertKN_self, acquireOkRun, guardedBody, stateLen, hsL,
                finallyRelease, rewrapBusy, skipBody, holderOf]

/-- C7: ack_delete unlinks the semaphore of the deleted resource
regardless of its prior state, and a subsequent obtain or reset on the
same identifier creates a fresh semaphore with count 1. -/
theorem ack_delete_unlinks_semaphore (u : String) (superAck : World → World) (w : World) :
    semCount (ack_delete u superAck w) (get_semaphore_name u) = none
    ∧ semCount (reset_lock u (ack_delete u superAck w)) (get_semaphore_name u) = some 1
    ∧ semCount (ensureSem (get_semaphore_name u) (ack_delete u superAck w)).1
        (get_semaphore_name u) = some 1 := by
  refine ⟨?_, ?_, ?_⟩
  · simp [ack_delete, semCount, lookupKN_eraseAllKN_self]
  · simp [reset_lock, ack_delete, semCount, lookupKN_eraseAllKN_self, lookupKN_insertKN_self]
  · simp [ensureSem, ack_delete, semCount, lookupKN_eraseAllKN_self, lookupKN_insertKN_self]

/-- C7 counterexample: Base.ack_delete completes on the base b/t1 (the
inherited acknowledgement and the root-graph edit both run, the lock of
the root is taken and released) yet the semaphore of the base is not
unlinked: it survives with its stale count 0. -/
theorem base_ack_delete_leaves_semaphore :
    semCount (base_ack_delete "root" "b/t1" 7 id skipBody wPairBusy).1
      (get_semaphore_name "b/t1") = some 0
    ∧ ¬ semCount (base_ack_delete "root" "b/t1" 7 id skipBody wPairBusy).1
        (get_semaphore_name "b/t1") = none := by
  constructor
  · decide
  · decide

/-- The slash-to-dash substitution is injective on dash-free strings. -/
theorem mapSlash_inj (l1 l2 : List Char)
    (h1 : '-' ∉ l1) (h2 : '-' ∉ l2)
    (h : l1.map (fun c => if c = '/' then '-' else c) =
         l2.map (fun c => if c = '/' then '-' else c)) :
    l1 = l2 := by
  induction l1 generalizing l2 with
  | nil =>
      cases l2 with
      | nil => rfl
      | cons b bs => simp at h
  | cons a as ih =>
      cases l2 with
      | nil => simp at h
      | cons b bs =>
          simp only [List.map_cons, List.cons.injEq] at h
          obtain ⟨hab, hrest⟩ := h
          simp only [List.mem_cons, not_or] at h1 h2
          obtain ⟨ha, has⟩ := h1
          obtain ⟨hb, hbs⟩ := h2
          have hhead : a = b := by
            by_cases ha2 : a = '/' <;> by_cases hb2 : b = '/' <;>
              simp only [ha2, hb2, if_true, if_pos, if_neg, ite_true, ite_false] at hab
            · rw [ha2, hb2]
            · exact absurd hab hb
            · exact absurd hab.symm ha
            · exact hab
          rw [hhead, ih bs has hbs hrest]

/-- C8: the semaphore name is exactly a slash followed by the uri with
every slash replaced by a dash, and the mapping is injective on uris
containing no dash. -/
theorem get_semaphore_name_injective
    (u1 u2 : String) (h1 : '-' ∉ u1.data) (h2 : '-' ∉ u2.data)
    (heq : get_semaphore_name u1 = get_semaphore_name u2) :
    u1 = u2
    ∧ (get_semaphore_name u1).data =
        '/' :: u1.data.map (fun c => if c = '/' then '-' else c) := by
  constructor
  · have hd := congrArg String.data heq
    simp only [get_semaphore_name, String.data_append] at hd
    have hmaps := List.append_cancel_left hd
    exact String.ext (mapSlash_inj u1.data u2.data h1 h2 hmaps)
  · simp [get_semaphore_name, String.data_append]

/-- C10: throughout every execution of lock, if the invariant that a
named holder implies a held semaphore (count 0) holds at entry and the
body preserves the observables, then it holds after every step and at
the end; moreover the holder is set immediately after the successful
acquisition and cleared strictly before the release, as the literal step
list of a plain run shows. -/
theorem lock_holder_implies_semaphore_held
    (self_uri res_uri : String) (tid : Nat) (body : Body) (w : World)
    (hbin : lookupKN w.sems (get_semaphore_name self_uri) = none ∨
            lookupKN w.sems (get_semaphore_name self_uri) = some 0 ∨
            lookupKN w.sems (get_semaphore_name self_uri) = some 1)
    (hinv : holderImpliesHeld self_uri (get_semaphore_name self_uri) w)
    (hbodyH : ∀ w1 : World, holderOf (body w1).1 self_uri = holderOf w1 self_uri)
    (hbodyS : ∀ w1 : World, semCount (body w1).1 (get_semaphore_name self_uri) =
              semCount w1 (get_semaphore_name self_uri))
    (hbodyT : ∀ w1 : World, ∀ st ∈ (body w1).2.1,
        holderOf st.2 self_uri = holderOf w1 self_uri ∧
        semCount st.2 (get_semaphore_name self_uri) = semCount w1 (get_semaphore_name self_uri)) :
    (∀ st ∈ (lockRun self_uri res_uri tid body w).2.1,
        holderImpliesHeld self_uri (get_semaphore_name self_uri) st.2)
    ∧ holderImpliesHeld self_uri (get_semaphore_name self_uri)
        (lockRun self_uri res_uri tid body w).1
    ∧ (∀ w1 : World, ¬ holderOf w1 self_uri = some tid →
        lookupKN w1.sems (get_semaphore_name self_uri) = some 1 →
        ¬ stateLen w1 res_uri = 0 →
        (lockRun self_uri res_uri tid skipBody w1).2.1.map Prod.fst =
          [Event.acquireOk (get_semaphore_name self_uri), Event.setHolder self_uri tid,
           Event.bodyStart self_uri, Event.clearHolder self_uri,
           Event.release (get_semaphore_name self_uri),
           Event.close (get_semaphore_name self_uri)]) := by
  have hord : ∀ w1 : World, ¬ holderOf w1 self_uri = some tid →
      lookupKN w1.sems (get_semaphore_name self_uri) = some 1 →
      ¬ stateLen w1 res_uri = 0 →
      (lockRun self_uri res_uri tid skipBody w1).2.1.map Prod.fst =
        [Event.acquireOk (get_semaphore_name self_uri), Event.setHolder self_uri tid,
         Event.bodyStart self_uri, Event.clearHolder self_uri,
         Event.release (get_semaphore_name self_uri),
         Event.close (get_semaphore_name self_uri)] := by
    intro w1 h1 h2 h3
    have h1L : ¬ lookupKN w1.holders self_uri = some tid := by simpa [holderOf] using h1
    have h3a : ¬ (lookupKN w1.states res_uri).getD 0 = 0 := by simpa [stateLen] using h3
    simp [lockRun, holderOf, h1L, lockSlow, ensureSem, semCount, h2, acquireOkRun,
          guardedBody, stateLen, h3a, skipBody, finallyRelease, rewrapBusy]
  by_cases hf : holderOf w self_uri = some tid
  · have hrun : lockRun self_uri res_uri tid body w = body w := by simp [lockRun, hf]
    refine ⟨?_, ?_, hord⟩
    · intro st hst t hht
      rw [hrun] at hst
      obtain ⟨hH, hS⟩ := hbodyT w st hst
      rw [hH] at hht
      rw [hS]
      exact hinv t hht
    · intro t hht
      rw [hrun] at hht ⊢
      rw [hbodyH w] at hht
      rw [hbodyS w]
      exact hinv t hht
  · have hfL : ¬ lookupKN w.holders self_uri = some tid := by simpa [holderOf] using hf
    rcases hbin with hn | h0 | h1
    · -- semaphore absent: created at 1, then acquired
      by_cases hst0 : (lookupKN w.states res_uri).getD 0 = 0
      · refine ⟨?_, ?_, hord⟩
        · intro st hst
          simp [lockRun, holderOf, hfL, lockSlow, ensureSem, semCount, hn, acquireOkRun,
                guardedBody, stateLen, hst0, finallyRelease, rewrapBusy_steps,
                lookupKN_insertKN_self] at hst
          rcases hst with rfl | rfl | rfl | rfl | rfl | rfl | rfl
          · intro t hht
            have := hinv t hht
            simp [semCount, hn] at this
          · intro t hht
            simp [semCount, lookupKN_insertKN_self]
          · intro t hht
            simp [semCount, lookupKN_insertKN_self]
          · intro t hht
            simp [semCount, lookupKN_insertKN_self]
          · intro t hht
            simp [holderOf, lookupKN_eraseAllKN_self] at hht
          · intro t hht
            simp [holderOf, lookupKN_eraseAllKN_self] at hht
          · intro t hht
            simp [holderOf, lookupKN_eraseAllKN_self] at hht
        · intro t hht
          simp [lockRun, holderOf, hfL, lockSlow, ensureSem, semCount, hn, acquireOkRun,
                guardedBody, stateLen, hst0, finallyRelease, rewrapBusy_fst,
                lookupKN_insertKN_self, lookupKN_eraseAllKN_self] at hht
      · refine ⟨?_, ?_, hord⟩
        · intro st hst
          simp [lockRun, holderOf, hfL, lockSlow, ensureSem, semCount, hn, acquireOkRun,
                guardedBody, stateLen, hst0, finallyRelease, rewrapBusy_steps,
                lookupKN_insertKN_self] at hst
          rcases hst with rfl | rfl | rfl | rfl | hmem | rfl | rfl | rfl
          · intro t hht
            have := hinv t hht
            simp [semCount, hn] at this
          · intro t hht
            simp [semCount, lookupKN_insertKN_self]
          · intro t hht
            simp [semCount, lookupKN_insertKN_self]
          · intro t hht
            simp [semCount, lookupKN_insertKN_self]
          · intro t hht
            have hS := (hbodyT _ st hmem).2
            rw [hS]
            simp [semCount, lookupKN_insertKN_self]
          · intro t hht
            simp [holderOf, lookupKN_eraseAllKN_self] at hht
          · intro t hht
            simp [holderOf, lookupKN_eraseAllKN_self] at hht
          · intro t hht
            simp [holderOf, lookupKN_eraseAllKN_self] at hht
        · intro t hht
          simp [lockRun, holderOf, hfL, lockSlow, ensureSem, semCount, hn, acquireOkRun,
                guardedBody, stateLen, hst0, finallyRelease, rewrapBusy_fst,
                lookupKN_insertKN_self, lookupKN_eraseAllKN_self] at hht
    · -- semaphore at 0: acquisition times out, nothing changes
      refine ⟨?_, ?_, hord⟩
      · intro st hst
        simp [lockRun, holderOf, hfL, lockSlow, ensureSem, semCount, h0] at hst
        rcases hst with rfl
        exact hinv
      · intro t hht
        simp [lockRun, holderOf, hfL, lockSlow, ensureSem, semCount, h0]
    · -- semaphore free at 1: acquired
      by_cases hst0 : (lookupKN w.states res_uri).getD 0 = 0
      · refine ⟨?_, ?_, hord⟩
        · intro st hst
          simp [lockRun, holderOf, hfL, lockSlow, ensureSem, semCount, h1, acquireOkRun,
                guardedBody, stateLen, hst0, finallyRelease, rewrapBusy_steps,
                lookupKN_insertKN_self] at hst
          rcases hst with rfl | rfl | rfl | rfl | rfl | rfl
          · intro t hht
            simp [semCount, lookupKN_insertKN_self]
          · intro t hht
            simp [semCount, lookupKN_insertKN_self]
          · intro t hht
            simp [semCount, lookupKN_insertKN_self]
          · intro t hht
            simp [holderOf, lookupKN_eraseAllKN_self] at hht
          · intro t hht
            simp [holderOf, lookupKN_eraseAllKN_self] at hht
          · intro t hht
            simp [holderOf, lookupKN_eraseAllKN_self] at hht
        · intro t hht
          simp [lockRun, holderOf, hfL, lockSlow, ensureSem, semCount, h1, acquireOkRun,
                guardedBody, stateLen, hst0, finallyRelease, rewrapBusy_fst,
                lookupKN_insertKN_self, lookupKN_eraseAllKN_self] at hht
      · refine ⟨?_, ?_, hord⟩
        · intro st hst
          simp [lockRun, holderOf, hfL, lockSlow, ensureSem, semCount, h1, acquireOkRun,
                guardedBody, stateLen, hst0, finallyRelease, rewrapBusy_steps,
                lookupKN_insertKN_self] at hst
          rcases hst with rfl | rfl | rfl | hmem | rfl | rfl | rfl
          · intro t hht
            simp [semCount, lookupKN_insertKN_self]
          · intro t hht
            simp [semCount, lookupKN_insertKN_self]
          · intro t hht
            simp [semCount, lookupKN_insertKN_self]
          · intro t hht
            have hS := (hbodyT _ st hmem).2
            rw [hS]
            simp [semCount, lookupKN_insertKN_self]
          · intro t hht
            simp [holderOf, lookupKN_eraseAllKN_self] at hht
          · intro t hht
            simp [holderOf, lookupKN_eraseAllKN_self] at hht
          · intro t hht
            simp [holderOf, lookupKN_eraseAllKN_self] at hht
        · intro t hht
          simp [lockRun, holderOf, hfL, lockSlow, ensureSem, semCount, h1, acquireOkRun,
                guardedBody, stateLen, hst0, finallyRelease, rewrapBusy_fst,
                lookupKN_insertKN_self, lookupKN_eraseAllKN_self] at hht

/-- C1: WithLockMixin delete acquires the root lock first and then the
target lock, in that order; when the inner acquisition times out, the
already-held root lock is released again and its holder record cleared,
so a failed delete leaves nothing held by the caller. -/
theorem delete_locks_root_then_self
    (root_uri self_uri : String) (tid : Nat) (superBody : Body) (w : World)
    (hne : ¬ root_uri = self_uri)
    (hname : ¬ get_semaphore_name root_uri = get_semaphore_name self_uri)
    (hrootH : ¬ holderOf w root_uri = some tid)
    (hrootS : lookupKN w.sems (get_semaphore_name root_uri) = some 1)
    (hselfH : ¬ holderOf w self_uri = some tid)
    (hstate : ¬ stateLen w self_uri = 0) :
    (lookupKN w.sems (get_semaphore_name self_uri) = some 0 →
      (deleteRun root_uri self_uri tid superBody w).2.1.map Prod.fst =
        [Event.acquireOk (get_semaphore_name root_uri), Event.setHolder root_uri tid,
         Event.bodyStart root_uri, Event.acquireTimeout (get_semaphore_name self_uri),
         Event.clearHolder root_uri, Event.release (get_semaphore_name root_uri),
         Event.close (get_semaphore_name root_uri)]
      ∧ semCount (deleteRun root_uri self_uri tid superBody w).1
          (get_semaphore_name root_uri) = some 1
      ∧ holderOf (deleteRun root_uri self_uri tid superBody w).1 root_uri = none
      ∧ holderOf (deleteRun root_uri self_uri tid superBody w).1 self_uri = holderOf w self_uri
      ∧ semCount (deleteRun root_uri self_uri tid superBody w).1
          (get_semaphore_name self_uri) = some 0
      ∧ (deleteRun root_uri self_uri tid superBody w).2.2 =
          Outcome.busyError (busyMsg root_uri none))
    ∧ (lookupKN w.sems (get_semaphore_name self_uri) = some 1 →
      (deleteRun root_uri self_uri tid skipBody w).2.1.map Prod.fst =
        [Event.acquireOk (get_semaphore_name root_uri), Event.setHolder root_uri tid,
         Event.bodyStart root_uri,
         Event.acquireOk (get_semaphore_name self_uri), Event.setHolder self_uri tid,
         Event.bodyStart self_uri,
         Event.clearHolder self_uri, Event.release (get_semaphore_name self_uri),
         Event.close (get_semaphore_name self_uri),
         Event.clearHolder root_uri, Event.release (get_semaphore_name root_uri),
         Event.close (get_semaphore_name root_uri)]) := by
  have hneS : ¬ self_uri = root_uri := fun hh => hne hh.symm
  have hnameS : ¬ get_semaphore_name self_uri = get_semaphore_name root_uri :=
    fun hh => hname hh.symm
  have hrootHL : ¬ lookupKN w.holders root_uri = some tid := by simpa [holderOf] using hrootH
  have hselfHL : ¬ lookupKN w.holders self_uri = some tid := by simpa [holderOf] using hselfH
  have hstateL : ¬ (lookupKN w.states self_uri).getD 0 = 0 := by simpa [stateLen] using hstate
  constructor
  · intro hs0
    refine ⟨?_, ?_, ?_, ?_, ?_, ?_⟩ <;>
      simp [deleteRun, lockRun, holderOf, hrootHL, hselfHL, lockSlow, ensureSem, semCount,
            hrootS, hs0, acquireOkRun, guardedBody, stateLen, hstateL, finallyRelease,
            rewrapBusy, busyMsg, holderRepr, lookupKN_insertKN_self, lookupKN_insertKN_ne,
            lookupKN_eraseAllKN_self, lookupKN_eraseAllKN_ne, hneS, hnameS]
  · intro hs1
    simp [deleteRun, lockRun, holderOf, hrootHL, hselfHL, lockSlow, ensureSem, semCount,
          hrootS, hs1, acquireOkRun, guardedBody, stateLen, hstateL, finallyRelease,
          rewrapBusy, busyMsg, holderRepr, lookupKN_insertKN_self, lookupKN_insertKN_ne,
          lookupKN_eraseAllKN_self, lookupKN_eraseAllKN_ne, hneS, hnameS, skipBody]

/-- Concrete run of C1 on a two-resource world. -/
theorem delete_locks_root_then_self_witness :
    (¬ holderOf wPairBusy "root" = some 7)
    ∧ (deleteRun "root" "b/t1" 7 skipBody wPairBusy).2.2 =
        Outcome.busyError (busyMsg "root" none)
    ∧ semCount (deleteRun "root" "b/t1" 7 skipBody wPairBusy).1
        (get_semaphore_name "root") = some 1
    ∧ (deleteRun "root" "b/t1" 7 skipBody wPairFree).2.1.map Prod.fst =
        [Event.acquireOk (get_semaphore_name "root"), Event.setHolder "root" 7,
         Event.bodyStart "root",
         Event.acquireOk (get_semaphore_name "b/t1"), Event.setHolder "b/t1" 7,
         Event.bodyStart "b/t1",
         Event.clearHolder "b/t1", Event.release (get_semaphore_name "b/t1"),
         Event.close (get_semaphore_name "b/t1"),
         Event.clearHolder "root", Event.release (get_semaphore_name "root"),
         Event.close (get_semaphore_name "root")] :=
  ⟨by decide,
   ((delete_locks_root_then_self "root" "b/t1" 7 skipBody wPairBusy (by decide) (by decide)
      (by decide) (by decide) (by decide) (by decide)).1 (by decide)).2.2.2.2.2,
   ((delete_locks_root_then_self "root" "b/t1" 7 skipBody wPairBusy (by decide) (by decide)
      (by decide) (by decide) (by decide) (by decide)).1 (by decide)).2.1,
   (delete_locks_root_then_self "root" "b/t1" 7 skipBody wPairFree (by decide) (by decide)
      (by decide) (by decide) (by decide) (by decide)).2 (by decide)⟩

/-- C1 counterexample: Base.delete on the base b/t1 acquires exactly one
semaphore, the one of the base itself, and never the one of the root:
its full step trace names only the base, whatever the inherited delete
does afterwards. -/
theorem base_delete_ignores_root_lock :
    (base_delete "b/t1" skipBody wPairFree).2.1.map Prod.fst =
      [Event.acquireOk (get_semaphore_name "b/t1"), Event.bodyStart "b/t1",
       Event.release (get_semaphore_name "b/t1")]
    ∧ ¬ Event.acquireOk (get_semaphore_name "root") ∈
        (base_delete "b/t1" skipBody wPairFree).2.1.map Prod.fst := by
  constructor
  · decide
  · decide

/-- Concrete run of C2 with a doubly nested reentrant call. -/
theorem lock_reentrant_no_semaphore_ops_witness :
    holderOf wHeldBy7 "b/t1" = some 7
    ∧ lockRun "b/t1" "b/t1" 7 skipBody wHeldBy7 = skipBody wHeldBy7
    ∧ nestLock "b/t1" "b/t1" 7 2 skipBody wHeldBy7 = skipBody wHeldBy7 :=
  ⟨by decide,
   (lock_reentrant_no_semaphore_ops "b/t1" "b/t1" 7 skipBody wHeldBy7 2 (by decide)).1,
   (lock_reentrant_no_semaphore_ops "b/t1" "b/t1" 7 skipBody wHeldBy7 2 (by decide)).2.1⟩

/-- Concrete run of C3 on a free lock. -/
theorem lock_releases_on_every_exit_witness :
    (¬ holderOf wFree "b/t1" = some 7)
    ∧ holderOf (lockRun "b/t1" "b/t1" 7 skipBody wFree).1 "b/t1" = none
    ∧ semCount (lockRun "b/t1" "b/t1" 7 skipBody wFree).1 (get_semaphore_name "b/t1") =
        some (0 + 1) :=
  ⟨by decide,
   (lock_releases_on_every_exit "b/t1" "b/t1" 7 skipBody wFree 0 (by decide)
      (Or.inl (by decide)) (fun _ => rfl)).1,
   (lock_releases_on_every_exit "b/t1" "b/t1" 7 skipBody wFree 0 (by decide)
      (Or.inl (by decide)) (fun _ => rfl)).2.1⟩

/-- Concrete run of C4 on a vanished resource. -/
theorem lock_stale_resource_check_witness :
    stateLen wGone "b/t1" = 0
    ∧ (lockRun "b/t1" "b/t1" 7 skipBody wGone).2.2 =
        Outcome.typeError ("The resource <" ++ "b/t1" ++ "> no longer exists.")
    ∧ "b/t1" ∈ (lockRun "b/t1" "b/t1" 7 skipBody wGone).1.deleted :=
  ⟨by decide,
   (lock_stale_resource_check "b/t1" "b/t1" 7 skipBody wGone 0 (by decide)
      (Or.inl (by decide)) (by decide)).1,
   (lock_stale_resource_check "b/t1" "b/t1" 7 skipBody wGone 0 (by decide)
      (Or.inl (by decide)) (by decide)).2.1⟩

/-- Concrete run of C5 on a stale lock stuck at 0. -/
theorem reset_lock_idempotent_free_witness :
    reset_lock "b/t1" (reset_lock "b/t1" wStale0) = reset_lock "b/t1" wStale0
    ∧ semCount (reset_lock "b/t1" wStale0) (get_semaphore_name "b/t1") = some (0 + 1)
    ∧ (lockRun "b/t1" "b/t1" 7 skipBody (reset_lock "b/t1" wStale0)).2.2 = Outcome.ok :=
  ⟨(reset_lock_idempotent_free "b/t1" wStale0 7).1,
   (reset_lock_idempotent_free "b/t1" wStale0 7).2.2.2.1 (by decide),
   ((reset_lock_idempotent_free "b/t1" wStale0 7).2.2.2.2 (by decide) (by decide)).1⟩

/-- Concrete run of C6 against a lock held by thread 5. -/
theorem lock_busy_error_diagnostic_witness :
    lookupKN wHeldBy5.sems (get_semaphore_name "b/t1") = some 0
    ∧ (lockRun "b/t1" "b/t1" 7 skipBody wHeldBy5).2.2 =
        Outcome.busyError (busyMsg "b/t1" (holderOf wHeldBy5 "b/t1"))
    ∧ substr (toString 5) (busyMsg "b/t1" (holderOf wHeldBy5 "b/t1")) :=
  ⟨by decide,
   (lock_busy_error_diagnostic "b/t1" "b/t1" 7 skipBody wHeldBy5 (by decide) (by decide)).1,
   (lock_busy_error_diagnostic "b/t1" "b/t1" 7 skipBody wHeldBy5 (by decide)
      (by decide)).2.2.2.1 5 (by decide) (by decide)⟩

/-- Concrete instance of C8. -/
theorem get_semaphore_name_injective_witness :
    ('-' ∉ ("b/t1" : String).data) ∧ ("b/t1" : String) = "b/t1" :=
  ⟨by decide,
   (get_semaphore_name_injective "b/t1" "b/t1" (by decide) (by decide) rfl).1⟩

/-- Concrete run of C9 on a held lock with empty state. -/
theorem lock_reentrant_skips_existence_check_witness :
    holderOf wHeldGone "b/t1" = some 7
    ∧ stateLen wHeldGone "b/t1" = 0
    ∧ lockRun "b/t1" "b/t1" 7 skipBody wHeldGone = skipBody wHeldGone
    ∧ (lockRun "b/t1" "b/t1" 7 skipBody wHeldGone).2.2 = Outcome.ok :=
  ⟨by decide, by decide,
   (lock_reentrant_skips_existence_check "b/t1" "b/t1" 7 skipBody wHeldGone (by decide)).1,
   ((lock_reentrant_skips_existence_check "b/t1" "b/t1" 7 skipBody wHeldGone
      (by decide)).2.1 (by decide)).1⟩

/-- Concrete runs of C10, reentrant and plain. -/
theorem lock_holder_implies_semaphore_held_witness :
    holderImpliesHeld "b/t1" (get_semaphore_name "b/t1") wHeldBy7
    ∧ holderImpliesHeld "b/t1" (get_semaphore_name "b/t1")
        (lockRun "b/t1" "b/t1" 7 skipBody wHeldBy7).1
    ∧ (lockRun "b/t1" "b/t1" 9 skipBody wFree).2.1.map Prod.fst =
        [Event.acquireOk (get_semaphore_name "b/t1"), Event.setHolder "b/t1" 9,
         Event.bodyStart "b/t1", Event.clearHolder "b/t1",
         Event.release (get_semaphore_name "b/t1"), Event.close (get_semaphore_name "b/t1")] :=
  ⟨fun t h => by decide,
   (lock_holder_implies_semaphore_held "b/t1" "b/t1" 7 skipBody wHeldBy7
      (Or.inr (Or.inl (by decide))) (fun t h => by decide) (fun _ => rfl) (fun _ => rfl)
      (by intro w1 st hst; simp [skipBody] at hst)).2.1,
   (lock_holder_implies_semaphore_held "b/t1" "b/t1" 9 skipBody wHeldBy7
      (Or.inr (Or.inl (by decide))) (fun t h => by decide) (fun _ => rfl) (fun _ => rfl)
      (by intro w1 st hst; simp [skipBody] at hst)).2.2 wFree (by decide) (by decide)
      (by decide)⟩
